import Mathlib

/-!
Shallow embedding of the turn-taking orchestration core of the
hireready-backend repository: the interview gateway session guard
(src/ai-interview/interview.gateway.ts), the interview service question
sequencing (src/ai-interview/interview.service.ts), and the LLM
question-bank generation post-processing (src/llm/llm.service.ts).

External collaborators (database writes, speech synthesis, speech
recognition, the remote LLM) are modelled as parameters: the raw
completion text returned by the LLM provider, a synthesis function
from text to bytes, and an explicit success-or-error outcome for the
awaited finalize call.
-/

/-- The JS String.prototype.trim operation used throughout the gateway and
service: strip whitespace from both ends of the string. Implemented by
structural recursion over the character list so that concrete runs reduce
inside the kernel. -/
def jsTrim (s : String) : String :=
  String.mk (((s.toList.dropWhile Char.isWhitespace).reverse.dropWhile
    Char.isWhitespace).reverse)

/-- Helper for splitOnChar: accumulate the current segment and cut at each
separator character. -/
def splitOnCharAux (c : Char) : List Char → List Char → List String
  | [], acc => [String.mk acc.reverse]
  | ch :: rest, acc =>
    if ch = c then String.mk acc.reverse :: splitOnCharAux c rest []
    else splitOnCharAux c rest (ch :: acc)

/-- The JS String.prototype.split operation with a one-character separator,
as used by LlmService.generateAllQuestions to split the completion text into
lines. -/
def splitOnChar (c : Char) (s : String) : List String :=
  splitOnCharAux c s.toList []

/-- One entry of the persisted conversation history, a role and a content
string, as pushed by InterviewService.addToHistory. -/
structure HistoryEntry where
  role : String
  content : String
deriving Repr, DecidableEq

/-- The persisted interview session row (prisma interviewSession) as read and
written by InterviewService: a 1-based currentQuestion counter, the total
question count, the pre-generated question bank stored in metadata.questions,
the conversation history, and the status string. -/
structure InterviewSession where
  currentQuestion : Nat
  totalQuestions : Nat
  questions : List String
  history : List HistoryEntry
  status : String
deriving Repr, DecidableEq

/-- The in-memory per-connection session record of InterviewGateway
(interface ActiveSession in interview.gateway.ts). The live speech
recognition handle is modelled by an optional handle number
(none models the JS null). -/
structure ActiveSession where
  sessionId : String
  userId : String
  liveSTT : Option Nat
  transcript : String
  isProcessing : Bool
  isFinalizing : Bool
deriving Repr, DecidableEq

/-- The object returned by InterviewService.processTranscript and
InterviewService.processAudioInput. The synthesized audio buffer is a list
of byte values; none models the JS null of the completion branch. -/
structure ProcessResult where
  transcript : String
  question : Option String
  questionAudioBytes : Option (List Nat)
  currentQuestion : Nat
  totalQuestions : Nat
  isComplete : Bool
deriving Repr, DecidableEq

/-- Outbound socket events emitted by the gateway during answer
finalization, in emission order. -/
inductive OutEvent where
  | answerSaved (sessionId : String)
  | interviewCompleted (sessionId : String) (currentQuestion totalQuestions : Nat)
  | nextQuestionMsg (sessionId : String) (content : String)
      (currentQuestion totalQuestions : Nat)
  | questionAudioMsg (sessionId : String) (bytes : List Nat)
  | interviewError (msg : String)
deriving Repr, DecidableEq

/-- Result of one run of InterviewGateway.autoProcessAnswer: the session
record afterwards, the answer string passed to processTranscript (none when
no finalize ran), the outbound events emitted in order, and whether the
record was deleted from the activeSessions map. -/
structure FinalizeResult where
  session : ActiveSession
  answer : Option String
  events : List OutEvent
  removed : Bool
deriving Repr, DecidableEq

/-- InterviewService.addToHistory: append a role plus content entry to the
persisted history of the session. -/
def addToHistory (db : InterviewSession) (role content : String) : InterviewSession :=
  { db with history := db.history ++ [{ role := role, content := content }] }

/-- Lookup of preGeneratedQuestions[nextQuestionIndex] followed by the JS
truthiness test if (!nextQuestion): an out-of-range index and an empty
string both count as missing and route to the LLM fallback. -/
def bankLookup (questions : List String) (i : Nat) : Option String :=
  match questions.get? i with
  | some q => if q = "" then none else some q
  | none => none

/-- InterviewService.processTranscript (interview.service.ts lines 76-172),
with the database in-memory, the synthesis collaborator as the function tts,
and the LLM fallback question of generateNextQuestion as the string llm.
Saves the answer to history, increments currentQuestion, judges completion
by strict greater-than, and otherwise returns the pre-generated question at
index currentQuestion - 1 (or the LLM fallback when that slot is missing
or empty). -/
def processTranscript (tts : String → List Nat) (llm : String)
    (db : InterviewSession) (userAnswer : String) :
    InterviewSession × ProcessResult :=
  let db1 := addToHistory db "user" userAnswer
  let updated := { db1 with currentQuestion := db1.currentQuestion + 1 }
  if updated.totalQuestions < updated.currentQuestion then
    ({ updated with status := "completed" },
     { transcript := userAnswer
       question := none
       questionAudioBytes := none
       currentQuestion := updated.currentQuestion
       totalQuestions := updated.totalQuestions
       isComplete := true })
  else
    let nextQuestionIndex := updated.currentQuestion - 1
    match bankLookup updated.questions nextQuestionIndex with
    | some nextQuestion =>
      (addToHistory updated "assistant" nextQuestion,
       { transcript := userAnswer
         question := some nextQuestion
         questionAudioBytes := some (tts nextQuestion)
         currentQuestion := updated.currentQuestion
         totalQuestions := updated.totalQuestions
         isComplete := false })
    | none =>
      (addToHistory updated "assistant" llm,
       { transcript := userAnswer
         question := some llm
         questionAudioBytes := some (tts llm)
         currentQuestion := updated.currentQuestion
         totalQuestions := updated.totalQuestions
         isComplete := false })

/-- InterviewService.processAudioInput (interview.service.ts lines 178-268),
the deprecated batch path, with the transcribed answer passed in directly.
Returns none when the code throws because the transcription is empty.
Completion here is judged by greater-or-equal, unlike processTranscript. -/
def processAudioInput (tts : String → List Nat) (llm : String)
    (db : InterviewSession) (userAnswer : String) :
    Option (InterviewSession × ProcessResult) :=
  if userAnswer = "" ∨ (jsTrim userAnswer).length = 0 then
    none
  else
    let db1 := addToHistory db "user" userAnswer
    let updated := { db1 with currentQuestion := db1.currentQuestion + 1 }
    if updated.totalQuestions ≤ updated.currentQuestion then
      some ({ updated with status := "completed" },
        { transcript := userAnswer
          question := none
          questionAudioBytes := none
          currentQuestion := updated.currentQuestion
          totalQuestions := updated.totalQuestions
          isComplete := true })
    else
      some (addToHistory updated "assistant" llm,
        { transcript := userAnswer
          question := some llm
          questionAudioBytes := some (tts llm)
          currentQuestion := updated.currentQuestion
          totalQuestions := updated.totalQuestions
          isComplete := false })

/-- InterviewGateway.autoProcessAnswer (interview.gateway.ts lines 139-245).
The awaited call to processTranscript is the one fallible suspension point
inside the try block, so its outcome is passed in as an Except value. The
parameter sttReady models session.liveSTT.connection.readyState being 1 in
the catch block, and freshHandle is the handle a restarted speech
recognition connection would get. -/
def autoProcessAnswer (s : ActiveSession)
    (outcome : Except String ProcessResult)
    (sttReady : Bool) (freshHandle : Nat) : FinalizeResult :=
  if s.isProcessing || s.isFinalizing then
    { session := s, answer := none, events := [], removed := false }
  else
    let s1 := { s with isFinalizing := true, isProcessing := true }
    let userAnswer := jsTrim s1.transcript
    if userAnswer = "" then
      { session := { s1 with isProcessing := false, isFinalizing := false }
        answer := none, events := [], removed := false }
    else
      match outcome with
      | Except.ok result =>
        let s2 := { s1 with transcript := "" }
        if result.isComplete then
          { session := s2
            answer := some userAnswer
            events := [OutEvent.answerSaved s.sessionId,
              OutEvent.interviewCompleted s.sessionId
                result.currentQuestion result.totalQuestions]
            removed := true }
        else
          let qEvents :=
            match result.question, result.questionAudioBytes with
            | some q, some bytes =>
              if q = "" then []
              else [OutEvent.nextQuestionMsg s.sessionId q
                      result.currentQuestion result.totalQuestions,
                    OutEvent.questionAudioMsg s.sessionId bytes]
            | _, _ => []
          { session := { s2 with isProcessing := false, isFinalizing := false }
            answer := some userAnswer
            events := OutEvent.answerSaved s.sessionId :: qEvents
            removed := false }
      | Except.error msg =>
        let s2 := { s1 with isProcessing := false, isFinalizing := false }
        let s3 :=
          if s2.liveSTT = none ∨ sttReady = false then
            { s2 with liveSTT := some freshHandle }
          else s2
        { session := s3, answer := some userAnswer
          events := [OutEvent.interviewError msg], removed := false }

/-- The UtteranceEnd callback registered in InterviewGateway.setupLiveSTT
(interview.gateway.ts lines 101-126) run to completion: the three admission
checks, then autoProcessAnswer. -/
def onUtteranceEnd (s : ActiveSession) (outcome : Except String ProcessResult)
    (sttReady : Bool) (freshHandle : Nat) : FinalizeResult :=
  if s.isFinalizing || s.isProcessing then
    { session := s, answer := none, events := [], removed := false }
  else if s.transcript = "" ∨ (jsTrim s.transcript).length = 0 then
    { session := s, answer := none, events := [], removed := false }
  else if (jsTrim s.transcript).length < 3 then
    { session := s, answer := none, events := [], removed := false }
  else
    autoProcessAnswer s outcome sttReady freshHandle

/-- The synchronous prefix of an UtteranceEnd delivery, up to the first
await inside autoProcessAnswer (the processTranscript call): the admission
checks and, on admission, the critical section that sets both guard flags.
The returned Bool records whether the signal was admitted; the returned
session is the state a second signal delivered before the guard flags are
cleared would observe. -/
def utteranceEndSignal (s : ActiveSession) : ActiveSession × Bool :=
  if s.isFinalizing || s.isProcessing then
    (s, false)
  else if s.transcript = "" ∨ (jsTrim s.transcript).length = 0 then
    (s, false)
  else if (jsTrim s.transcript).length < 3 then
    (s, false)
  else
    ({ s with isFinalizing := true, isProcessing := true }, true)

/-- InterviewGateway.handleFinishRecording (the manual fallback trigger):
drops the request when a finalize is in flight, otherwise runs
autoProcessAnswer. -/
def onFinishRecording (s : ActiveSession) (outcome : Except String ProcessResult)
    (sttReady : Bool) (freshHandle : Nat) : FinalizeResult :=
  if s.isFinalizing || s.isProcessing then
    { session := s, answer := none, events := [], removed := false }
  else
    autoProcessAnswer s outcome sttReady freshHandle

/-- Test of the regex anchored digits-then-dot pattern used by
LlmService.generateAllQuestions to keep only numbered lines: a nonempty
digit run at the start followed immediately by a dot. -/
def matchesNumberDot (s : String) : Bool :=
  let cs := s.toList
  let ds := cs.takeWhile Char.isDigit
  decide (ds ≠ []) && decide ((cs.drop ds.length).head? = some '.')

/-- The JS replace of the anchored digits-dot-whitespace pattern by the
empty string, as applied by LlmService.generateAllQuestions to each kept
line: when the line starts with digits followed by a dot, drop them and any
whitespace directly after the dot; otherwise return the line unchanged. -/
def stripNumberDot (s : String) : String :=
  let cs := s.toList
  let ds := cs.takeWhile Char.isDigit
  let rest := cs.drop ds.length
  if ds ≠ [] ∧ rest.head? = some '.' then
    String.mk ((rest.drop 1).dropWhile Char.isWhitespace)
  else s

/-- The parsing pipeline of LlmService.generateAllQuestions (llm.service.ts
lines 70-74): split the completion text on newlines, keep the lines whose
trimmed form starts with a number and a dot, strip the numbering from the
original line and trim, and drop the entries that end up empty. -/
def parseQuestions (text : String) : List String :=
  (((splitOnChar '\n' text).filter (fun line => matchesNumberDot (jsTrim line))).map
      (fun line => jsTrim (stripNumberDot line))).filter
    (fun q => q.length > 0)

/-- The generic question pushed by the padding loop of
LlmService.generateAllQuestions when the provider returned fewer parseable
questions than requested. -/
def fallbackQuestion : String :=
  "Tell me more about your experience related to this role."

/-- The padding while-loop of LlmService.generateAllQuestions: push the
fallback question until the list reaches the requested count. -/
def padToCount (qs : List String) (n : Nat) : List String :=
  qs ++ List.replicate (n - qs.length) fallbackQuestion

/-- LlmService.generateAllQuestions (llm.service.ts lines 20-86) after the
provider call, as a function of the raw completion text the provider
returned: parse the numbered lines, pad with the generic fallback when
fewer than requested, and truncate to the requested count. -/
def generateAllQuestions (completionText : String) (totalQuestions : Nat) :
    List String :=
  let questions := parseQuestions completionText
  let questions :=
    if questions.length < totalQuestions then padToCount questions totalQuestions
    else questions
  questions.take totalQuestions

/-- The shape returned by InterviewService.startInterview to the gateway. -/
structure StartResult where
  question : String
  currentQuestion : Nat
  totalQuestions : Nat
deriving Repr, DecidableEq

/-- InterviewService.startInterview (interview.service.ts lines 26-71) with
the provider completion text passed in: apply the JS falsy-or default
dto.totalQuestions or 5, build the question bank, create the session row
starting at question 1 with status in_progress, and record the first
question in the history. The dto field is an Option so that none models
both an omitted and a null totalQuestions; an explicit 0 is falsy in JS and
also takes the default. -/
def startInterview (completionText : String) (dtoTotalQuestions : Option Nat) :
    InterviewSession × StartResult :=
  let totalQuestions :=
    match dtoTotalQuestions with
    | none => 5
    | some n => if n = 0 then 5 else n
  let allQuestions := generateAllQuestions completionText totalQuestions
  let firstQuestion := allQuestions.headD ""
  let db : InterviewSession :=
    { currentQuestion := 1
      totalQuestions := totalQuestions
      questions := allQuestions
      history := []
      status := "in_progress" }
  (addToHistory db "assistant" firstQuestion,
   { question := firstQuestion, currentQuestion := 1,
     totalQuestions := totalQuestions })

/-- Lookup in the activeSessions map of the gateway, keyed by the socket
client id. -/
def mapGet : List (String × ActiveSession) → String → Option ActiveSession
  | [], _ => none
  | p :: rest, k => if p.1 = k then some p.2 else mapGet rest k

/-- The JS Map.set operation on the activeSessions map: replace the entry
for an existing key in place, otherwise append a new entry. -/
def mapSet : List (String × ActiveSession) → String → ActiveSession →
    List (String × ActiveSession)
  | [], k, v => [(k, v)]
  | p :: rest, k, v =>
    if p.1 = k then (k, v) :: rest else p :: mapSet rest k v

/-- The session record built by InterviewGateway.handleStartInterview
(interview.gateway.ts lines 262-274): fresh transcript and clear guard
flags; liveSTT is first null and then assigned the handle returned by
setupLiveSTT on the very record just stored, so the stored record carries
the fresh handle. -/
def initialActiveSession (sessionId userId : String) (handle : Nat) :
    ActiveSession :=
  { sessionId := sessionId
    userId := userId
    liveSTT := some handle
    transcript := ""
    isProcessing := false
    isFinalizing := false }

/-- The registry step of InterviewGateway.handleStartInterview: the
unconditional activeSessions.set of the freshly built record under the
client id. -/
def handleStartInterviewRegistry (m : List (String × ActiveSession))
    (clientId sessionId userId : String) (handle : Nat) :
    List (String × ActiveSession) :=
  mapSet m clientId (initialActiveSession sessionId userId handle)

/-- A synthesis stub producing a one-byte buffer for any text, used to run
the model on concrete inputs. -/
def tts0 : String → List Nat := fun _ => [1]

/-- A session record with a finalize in flight (isProcessing set). -/
def busySession : ActiveSession :=
  { sessionId := "sess1"
    userId := "user1"
    liveSTT := some 1
    transcript := "some words here"
    isProcessing := true
    isFinalizing := false }

/-- A session record with clear guard flags and a real buffered answer. -/
def readySession : ActiveSession :=
  { sessionId := "sess1"
    userId := "user1"
    liveSTT := some 1
    transcript := "I like teams"
    isProcessing := false
    isFinalizing := false }

/-- A session record whose buffer trims to the 2-character string ok. -/
def shortSession : ActiveSession :=
  { sessionId := "sess1"
    userId := "user1"
    liveSTT := some 1
    transcript := "  ok "
    isProcessing := false
    isFinalizing := false }

/-- A persisted session answering question 4 of 5, with a full bank. -/
def bankSession : InterviewSession :=
  { currentQuestion := 4
    totalQuestions := 5
    questions := ["q1", "q2", "q3", "q4", "q5"]
    history := []
    status := "in_progress" }

/-- A persisted session answering the last question (5 of 5). -/
def lastQuestionSession : InterviewSession :=
  { currentQuestion := 5
    totalQuestions := 5
    questions := ["q1", "q2", "q3", "q4", "q5"]
    history := []
    status := "in_progress" }

/-- A persisted session already past completion: currentQuestion is
totalQuestions + 1, the state reached right after the completing turn. -/
def exhaustedSession : InterviewSession :=
  { currentQuestion := 6
    totalQuestions := 5
    questions := ["q1", "q2", "q3", "q4", "q5"]
    history := []
    status := "completed" }

/-- An existing in-memory record for a connection, holding transcription
handle 1, present before a second start request on the same connection. -/
def oldRecord : ActiveSession :=
  { sessionId := "sessA"
    userId := "user1"
    liveSTT := some 1
    transcript := "previous words"
    isProcessing := false
    isFinalizing := false }

theorem ne_empty_of_trim_length {s : String} (h : (jsTrim s).length ≠ 0) :
    ¬ s = "" := by
  intro he
  subst he
  exact h (by decide)

theorem generateAllQuestions_length (t : String) (n : Nat) :
    (generateAllQuestions t n).length = n := by
  show (List.take n (if (parseQuestions t).length < n then
    padToCount (parseQuestions t) n else parseQuestions t)).length = n
  by_cases h : (parseQuestions t).length < n
  · rw [if_pos h]
    simp only [padToCount, List.length_take, List.length_append,
      List.length_replicate]
    omega
  · rw [if_neg h]
    simp only [List.length_take]
    omega

theorem mapGet_mapSet_self (m : List (String × ActiveSession)) (k : String)
    (v : ActiveSession) : mapGet (mapSet m k v) k = some v := by
  induction m with
  | nil => simp [mapGet, mapSet]
  | cons p rest ih =>
    by_cases h : p.1 = k
    · simp [mapGet, mapSet, h]
    · simp [mapGet, mapSet, h, ih]

theorem mapGet_mapSet_ne (m : List (String × ActiveSession)) (k k' : String)
    (v : ActiveSession) (h : ¬ k' = k) :
    mapGet (mapSet m k v) k' = mapGet m k' := by
  have h' : ¬ k = k' := fun he => h he.symm
  induction m with
  | nil => simp [mapGet, mapSet, h']
  | cons p rest ih =>
    by_cases hp : p.1 = k
    · subst hp
      simp [mapGet, mapSet, h']
    · simp only [mapSet, if_neg hp]
      by_cases hp' : p.1 = k'
      · simp [mapGet, hp']
      · simp [mapGet, hp', ih]

/-- C1: an end-of-turn signal, automatic UtteranceEnd or manual
finish_recording, delivered while isProcessing or isFinalizing is true is
dropped as a no-op with no change to any session state; and when a first
signal is admitted, a second signal delivered back-to-back before the guard
flags are cleared is dropped with no state change, so exactly one of the
two is admitted. -/
theorem C1_guard_drops_duplicate_end_of_turn (s : ActiveSession)
    (outcome : Except String ProcessResult) (sttReady : Bool) (freshHandle : Nat) :
    ((s.isProcessing = true ∨ s.isFinalizing = true) →
      onUtteranceEnd s outcome sttReady freshHandle =
          { session := s, answer := none, events := [], removed := false } ∧
        onFinishRecording s outcome sttReady freshHandle =
          { session := s, answer := none, events := [], removed := false } ∧
        utteranceEndSignal s = (s, false)) ∧
      ((utteranceEndSignal s).2 = true →
        (utteranceEndSignal (utteranceEndSignal s).1).2 = false ∧
          (utteranceEndSignal (utteranceEndSignal s).1).1 =
            (utteranceEndSignal s).1) := by
  constructor
  · rintro (h | h) <;>
      simp [onUtteranceEnd, onFinishRecording, utteranceEndSignal,
        autoProcessAnswer, h]
  · intro h
    by_cases h1 : (s.isFinalizing || s.isProcessing) = true
    · simp [utteranceEndSignal, h1] at h
    · by_cases h2 : s.transcript = "" ∨ (jsTrim s.transcript).length = 0
      · simp [utteranceEndSignal, h1, h2] at h
      · by_cases h3 : (jsTrim s.transcript).length < 3
        · simp [utteranceEndSignal, h1, h2, h3] at h
        · simp [utteranceEndSignal, h1, h2, h3]

/-- Witness for C1: the busy session (isProcessing set) drops both signal
kinds unchanged, and the ready session admits the first of two back-to-back
signals while the second, delivered before any guard clear, is dropped. -/
theorem C1_guard_drops_duplicate_end_of_turn_witness :
    (onUtteranceEnd busySession (Except.error "e") true 0 =
        { session := busySession, answer := none, events := [], removed := false } ∧
      onFinishRecording busySession (Except.error "e") true 0 =
        { session := busySession, answer := none, events := [], removed := false } ∧
      utteranceEndSignal busySession = (busySession, false)) ∧
      ((utteranceEndSignal readySession).2 = true ∧
        (utteranceEndSignal (utteranceEndSignal readySession).1).2 = false) := by
  refine ⟨(C1_guard_drops_duplicate_end_of_turn busySession
      (Except.error "e") true 0).1 (Or.inl rfl), by decide, ?_⟩
  exact ((C1_guard_drops_duplicate_end_of_turn readySession
    (Except.error "e") true 0).2 (by decide)).1

/-- C2: an end-of-turn signal whose accumulated buffer has fewer than 3
characters after trimming is dropped: no finalize action runs, no state
changes, no event is emitted, and the signal is not admitted; with both
guard flags clear and a trimmed buffer of length 3 or more, the signal is
admitted. -/
theorem C2_minimum_content_rule (s : ActiveSession)
    (outcome : Except String ProcessResult) (sttReady : Bool) (freshHandle : Nat) :
    ((jsTrim s.transcript).length < 3 →
      onUtteranceEnd s outcome sttReady freshHandle =
          { session := s, answer := none, events := [], removed := false } ∧
        (utteranceEndSignal s).2 = false) ∧
      (s.isProcessing = false → s.isFinalizing = false →
        3 ≤ (jsTrim s.transcript).length → (utteranceEndSignal s).2 = true) := by
  constructor
  · intro h
    by_cases h1 : (s.isFinalizing || s.isProcessing) = true
    · simp [onUtteranceEnd, utteranceEndSignal, h1]
    · by_cases h2 : s.transcript = "" ∨ (jsTrim s.transcript).length = 0
      · simp [onUtteranceEnd, utteranceEndSignal, h1, h2]
      · simp [onUtteranceEnd, utteranceEndSignal, h1, h2, h]
  · intro hp hf h
    have h0 : (jsTrim s.transcript).length ≠ 0 := by omega
    have h2 : ¬ (s.transcript = "" ∨ (jsTrim s.transcript).length = 0) := by
      rintro (he | he)
      · exact ne_empty_of_trim_length h0 he
      · exact h0 he
    have h3 : ¬ (jsTrim s.transcript).length < 3 := by omega
    simp [utteranceEndSignal, hp, hf, h2, h3]

/-- Witness for C2: the short session (buffer trimming to the 2-character
string ok) is dropped unchanged, and the ready session is admitted. -/
theorem C2_minimum_content_rule_witness :
    (onUtteranceEnd shortSession (Except.error "e") true 0 =
        { session := shortSession, answer := none, events := [], removed := false } ∧
      (utteranceEndSignal shortSession).2 = false) ∧
      (utteranceEndSignal readySession).2 = true := by
  refine ⟨(C2_minimum_content_rule shortSession (Except.error "e") true 0).1
      (by decide), ?_⟩
  exact (C2_minimum_content_rule readySession (Except.error "e") true 0).2
    rfl rfl (by decide)

/-- Counterexample to C3: at the same persisted state (answering question 4
of 5) the two completion-deciding operations disagree, because
processAudioInput judges completion with greater-or-equal; it reports the
session complete at currentQuestion 5 of 5, an index that does not strictly
exceed totalQuestions. -/
theorem C3_counterexample :
    (processTranscript tts0 "fb" bankSession "my answer").2.isComplete = false ∧
      (processAudioInput tts0 "fb" bankSession "my answer").map
          (fun p => (p.2.currentQuestion, p.2.totalQuestions, p.2.isComplete)) =
        some (5, 5, true) := by decide

/-- C3 amended: processTranscript, the live path, judges the session
complete iff the incremented index strictly exceeds totalQuestions, while
the deprecated processAudioInput path judges it complete iff the
incremented index is greater than or equal to totalQuestions; the two
diverge exactly when the incremented index equals totalQuestions. -/
theorem C3_amended_completion_rules (tts : String → List Nat) (llm : String)
    (db : InterviewSession) (answer : String)
    (h : (jsTrim answer).length ≠ 0) :
    (processTranscript tts llm db answer).2.isComplete =
        decide (db.totalQuestions < db.currentQuestion + 1) ∧
      (processAudioInput tts llm db answer).map (fun p => p.2.isComplete) =
        some (decide (db.totalQuestions ≤ db.currentQuestion + 1)) := by
  have hne : ¬ (answer = "" ∨ (jsTrim answer).length = 0) := by
    rintro (he | he)
    · exact ne_empty_of_trim_length h he
    · exact h he
  constructor
  · by_cases hc : db.totalQuestions < db.currentQuestion + 1
    · simp [processTranscript, addToHistory, hc]
    · simp only [processTranscript, addToHistory, if_neg hc]
      cases hb : bankLookup db.questions (db.currentQuestion + 1 - 1) <;>
        simp [hb, hc]
  · by_cases hc : db.totalQuestions ≤ db.currentQuestion + 1
    · simp [processAudioInput, addToHistory, hne, hc]
    · simp [processAudioInput, addToHistory, hne, hc]

/-- Witness for C3 amended: concrete evaluation at the state answering
question 4 of 5, where the strict rule says not complete and the
greater-or-equal rule says complete. -/
theorem C3_amended_completion_rules_witness :
    (processTranscript tts0 "fb" bankSession "my answer").2.isComplete =
        decide (bankSession.totalQuestions < bankSession.currentQuestion + 1) ∧
      (processAudioInput tts0 "fb" bankSession "my answer").map
          (fun p => p.2.isComplete) =
        some (decide (bankSession.totalQuestions ≤
          bankSession.currentQuestion + 1)) :=
  C3_amended_completion_rules tts0 "fb" bankSession "my answer" (by decide)

/-- Counterexample to C4: when the finalize action errors, the catch block
of autoProcessAnswer clears both guard flags but does not clear the
transcript buffer: after an errored finalize of the ready session the
buffer still holds the whole answer, so the buffer is not cleared on every
completion of the finalize action. -/
theorem C4_admission_effects_counterexample :
    (autoProcessAnswer readySession (Except.error "db write failed")
          true 0).session.isProcessing = false ∧
      (autoProcessAnswer readySession (Except.error "db write failed")
          true 0).session.isFinalizing = false ∧
      (autoProcessAnswer readySession (Except.error "db write failed")
          true 0).session.transcript = "I like teams" ∧
      ¬ (autoProcessAnswer readySession (Except.error "db write failed")
          true 0).session.transcript = "" := by decide

/-- C4 amended: for every admitted end-of-turn action the guard sets
isFinalizing and isProcessing to true and takes the trimmed transcript
buffer as the candidate answer; when the finalize action succeeds the
buffer is cleared (with the guard flags then cleared if the interview
continues, and the record removed with the flags still set if it is
complete); when the finalize action errors the guard flags are cleared but
the transcript buffer is left unchanged. -/
theorem C4_admission_effects_amended (s : ActiveSession) (result : ProcessResult)
    (msg : String) (sttReady : Bool) (freshHandle : Nat)
    (hp : s.isProcessing = false) (hf : s.isFinalizing = false)
    (hne : ¬ jsTrim s.transcript = "") :
    ((autoProcessAnswer s (Except.ok result) sttReady freshHandle).answer =
        some (jsTrim s.transcript) ∧
      (autoProcessAnswer s (Except.error msg) sttReady freshHandle).answer =
        some (jsTrim s.transcript)) ∧
      (result.isComplete = false →
        (autoProcessAnswer s (Except.ok result) sttReady
            freshHandle).session.transcript = "" ∧
          (autoProcessAnswer s (Except.ok result) sttReady
            freshHandle).session.isProcessing = false ∧
          (autoProcessAnswer s (Except.ok result) sttReady
            freshHandle).session.isFinalizing = false ∧
          (autoProcessAnswer s (Except.ok result) sttReady
            freshHandle).removed = false) ∧
      (result.isComplete = true →
        (autoProcessAnswer s (Except.ok result) sttReady
            freshHandle).session.transcript = "" ∧
          (autoProcessAnswer s (Except.ok result) sttReady
            freshHandle).session.isFinalizing = true ∧
          (autoProcessAnswer s (Except.ok result) sttReady
            freshHandle).session.isProcessing = true ∧
          (autoProcessAnswer s (Except.ok result) sttReady
            freshHandle).removed = true) ∧
      ((autoProcessAnswer s (Except.error msg) sttReady
          freshHandle).session.isProcessing = false ∧
        (autoProcessAnswer s (Except.error msg) sttReady
          freshHandle).session.isFinalizing = false ∧
        (autoProcessAnswer s (Except.error msg) sttReady
          freshHandle).session.transcript = s.transcript) := by
  refine ⟨⟨?_, ?_⟩, fun hc => ?_, fun hc => ?_, ?_⟩
  · by_cases hc : result.isComplete = true <;>
      simp [autoProcessAnswer, hp, hf, hne, hc]
  · by_cases hstt : s.liveSTT = none ∨ sttReady = false <;>
      simp [autoProcessAnswer, hp, hf, hne, hstt]
  · simp [autoProcessAnswer, hp, hf, hne, hc]
  · simp [autoProcessAnswer, hp, hf, hne, hc]
  · by_cases hstt : s.liveSTT = none ∨ sttReady = false <;>
      simp [autoProcessAnswer, hp, hf, hne, hstt]

/-- Witness for C4 amended at the ready session: a successful non-complete
finalize clears the buffer and the flags, and an errored finalize clears
the flags but keeps the buffer. -/
theorem C4_admission_effects_amended_witness :
    (autoProcessAnswer readySession
        (Except.ok (processTranscript tts0 "fb" bankSession "my answer").2)
        true 0).session.transcript = "" ∧
      (autoProcessAnswer readySession (Except.error "boom")
          true 0).session.transcript = readySession.transcript := by
  refine ⟨((C4_admission_effects_amended readySession
      (processTranscript tts0 "fb" bankSession "my answer").2 "boom" true 0
      rfl rfl (by decide)).2.1 (by decide)).1, ?_⟩
  exact (C4_admission_effects_amended readySession
    (processTranscript tts0 "fb" bankSession "my answer").2 "boom" true 0
    rfl rfl (by decide)).2.2.2.2.2

/-- Counterexample to C5: invoking the sequencing step of processTranscript
on a session that is already complete (currentQuestion 6 of 5) does not
fail with a SequencerExhausted error: it silently increments the index to
7 and reports Complete again. -/
theorem C5_sequencer_counterexample :
    (processTranscript tts0 "fb" exhaustedSession "again").1.currentQuestion = 7 ∧
      (processTranscript tts0 "fb" exhaustedSession "again").2.isComplete = true ∧
      (processTranscript tts0 "fb" exhaustedSession "again").2.question =
        none := by decide

/-- C5 amended: the sequencing step of processTranscript increments the
current question index; if the new index exceeds totalQuestions the result
is Complete (no question), otherwise the result is the question string at
position newIndex - 1 of the pre-generated question bank; invoked when the
sequencer is already Complete it does not fail: it silently increments
further and reports Complete again, since no SequencerExhausted error
exists in the code. -/
theorem C5_sequencer_advance_amended (tts : String → List Nat) (llm : String)
    (db : InterviewSession) (answer : String) (q : String) :
    (processTranscript tts llm db answer).1.currentQuestion =
        db.currentQuestion + 1 ∧
      (db.totalQuestions < db.currentQuestion + 1 →
        (processTranscript tts llm db answer).2.isComplete = true ∧
          (processTranscript tts llm db answer).2.question = none) ∧
      (db.currentQuestion + 1 ≤ db.totalQuestions →
        db.questions.get? db.currentQuestion = some q → ¬ q = "" →
        (processTranscript tts llm db answer).2.isComplete = false ∧
          (processTranscript tts llm db answer).2.question = some q) ∧
      (db.totalQuestions < db.currentQuestion →
        (processTranscript tts llm db answer).1.currentQuestion =
            db.currentQuestion + 1 ∧
          (processTranscript tts llm db answer).2.isComplete = true) := by
  refine ⟨?_, fun hc => ?_, fun hc hq hqne => ?_, fun hc => ?_⟩
  · by_cases hc : db.totalQuestions < db.currentQuestion + 1
    · simp [processTranscript, addToHistory, hc]
    · simp only [processTranscript, addToHistory, if_neg hc]
      cases hb : bankLookup db.questions (db.currentQuestion + 1 - 1) <;>
        simp [hb]
  · simp [processTranscript, addToHistory, hc]
  · have hnc : ¬ db.totalQuestions < db.currentQuestion + 1 := by omega
    have hb : bankLookup db.questions db.currentQuestion = some q := by
      simp only [bankLookup]
      rw [hq]
      simp [hqne]
    simp [processTranscript, addToHistory, hnc, hb]
  · have hlt : db.totalQuestions < db.currentQuestion + 1 := by omega
    simp [processTranscript, addToHistory, hlt]

/-- Witness for C5 amended: at the state answering question 4 of 5 the step
advances to 5 and yields the bank entry q5; at the state answering the last
question it advances to 6 and reports Complete. -/
theorem C5_sequencer_advance_amended_witness :
    (processTranscript tts0 "fb" bankSession "my answer").1.currentQuestion = 5 ∧
      (processTranscript tts0 "fb" bankSession "my answer").2.question =
        some "q5" ∧
      (processTranscript tts0 "fb" lastQuestionSession "my answer").2.isComplete =
        true := by
  refine ⟨(C5_sequencer_advance_amended tts0 "fb" bankSession "my answer" "q5").1,
    ((C5_sequencer_advance_amended tts0 "fb" bankSession "my answer" "q5").2.2.1
      (by decide) (by decide) (by decide)).2,
    ((C5_sequencer_advance_amended tts0 "fb" lastQuestionSession "my answer"
      "q5").2.1 (by decide)).1⟩

/-- C6: when an admitted end-of-turn finalize action fails with a provider
error, an interview_error event is emitted, both guard flags are cleared,
and a subsequent end-of-turn signal for the same session is admitted again
(the session does not deadlock). -/
theorem C6_error_clears_guard (s : ActiveSession) (msg : String)
    (sttReady : Bool) (freshHandle : Nat)
    (hp : s.isProcessing = false) (hf : s.isFinalizing = false)
    (hlen : 3 ≤ (jsTrim s.transcript).length) :
    (onUtteranceEnd s (Except.error msg) sttReady freshHandle).events =
        [OutEvent.interviewError msg] ∧
      (onUtteranceEnd s (Except.error msg) sttReady
        freshHandle).session.isProcessing = false ∧
      (onUtteranceEnd s (Except.error msg) sttReady
        freshHandle).session.isFinalizing = false ∧
      (utteranceEndSignal (onUtteranceEnd s (Except.error msg) sttReady
        freshHandle).session).2 = true := by
  have h0 : (jsTrim s.transcript).length ≠ 0 := by omega
  have h2 : ¬ (s.transcript = "" ∨ (jsTrim s.transcript).length = 0) := by
    rintro (he | he)
    · exact ne_empty_of_trim_length h0 he
    · exact h0 he
  have h3 : ¬ (jsTrim s.transcript).length < 3 := by omega
  have hne : ¬ jsTrim s.transcript = "" := by
    intro he
    exact h0 (by simp [he])
  by_cases hstt : s.liveSTT = none ∨ sttReady = false <;>
    simp [onUtteranceEnd, autoProcessAnswer, utteranceEndSignal, hp, hf, h2,
      h3, hne, hstt]

/-- Witness for C6: an errored finalize of the ready session emits the
error event, clears both flags, and leaves the session admitting the next
end-of-turn signal. -/
theorem C6_error_clears_guard_witness :
    (onUtteranceEnd readySession (Except.error "tts down") true 0).events =
        [OutEvent.interviewError "tts down"] ∧
      (utteranceEndSignal (onUtteranceEnd readySession (Except.error "tts down")
        true 0).session).2 = true := by
  refine ⟨(C6_error_clears_guard readySession "tts down" true 0 rfl rfl
      (by decide)).1, ?_⟩
  exact (C6_error_clears_guard readySession "tts down" true 0 rfl rfl
    (by decide)).2.2.2

/-- C7: for every provider completion text (hence for every job description)
and every requested count, generateAllQuestions returns exactly count
question strings: when fewer than count questions parse from the completion
the result is the parsed list padded with the generic fallback question up
to count, and otherwise the parsed list truncated to count. -/
theorem C7_generate_exact_count (completionText : String) (totalQuestions : Nat) :
    (generateAllQuestions completionText totalQuestions).length =
        totalQuestions ∧
      ((parseQuestions completionText).length < totalQuestions →
        generateAllQuestions completionText totalQuestions =
          parseQuestions completionText ++
            List.replicate
              (totalQuestions - (parseQuestions completionText).length)
              fallbackQuestion) ∧
      (totalQuestions ≤ (parseQuestions completionText).length →
        generateAllQuestions completionText totalQuestions =
          (parseQuestions completionText).take totalQuestions) := by
  refine ⟨generateAllQuestions_length completionText totalQuestions,
    fun h => ?_, fun h => ?_⟩
  · show List.take totalQuestions (if (parseQuestions completionText).length <
        totalQuestions then padToCount (parseQuestions completionText)
          totalQuestions
        else parseQuestions completionText) = _
    rw [if_pos h]
    apply List.take_of_length_le
    simp only [padToCount, List.length_append, List.length_replicate]
    omega
  · show List.take totalQuestions (if (parseQuestions completionText).length <
        totalQuestions then padToCount (parseQuestions completionText)
          totalQuestions
        else parseQuestions completionText) = _
    rw [if_neg (by omega)]

/-- Witness for C7: a completion with two parseable questions requested at
count 3 is padded to exactly 3, and one with three questions requested at
count 2 is truncated to exactly 2. -/
theorem C7_generate_exact_count_witness :
    (generateAllQuestions "1. A\n2. B" 3).length = 3 ∧
      generateAllQuestions "1. A\n2. B" 3 =
        parseQuestions "1. A\n2. B" ++
          List.replicate (3 - (parseQuestions "1. A\n2. B").length)
            fallbackQuestion ∧
      generateAllQuestions "1. A\n2. B\n3. C" 2 =
        (parseQuestions "1. A\n2. B\n3. C").take 2 := by
  refine ⟨(C7_generate_exact_count "1. A\n2. B" 3).1,
    (C7_generate_exact_count "1. A\n2. B" 3).2.1 (by decide),
    (C7_generate_exact_count "1. A\n2. B\n3. C" 2).2.2 (by decide)⟩

/-- Counterexample to C8: a start request on a connection that already has
an active record does not fail with a DuplicateSession error; the set on
the activeSessions map silently replaces the old record (here the stored
record becomes the fresh one and the old record with its transcription
handle is gone). -/
theorem C8_duplicate_session_counterexample :
    mapGet (handleStartInterviewRegistry [("conn1", oldRecord)] "conn1"
        "sessB" "user1" 2) "conn1" =
      some (initialActiveSession "sessB" "user1" 2) ∧
      ¬ initialActiveSession "sessB" "user1" 2 = oldRecord ∧
      ¬ mapGet (handleStartInterviewRegistry [("conn1", oldRecord)] "conn1"
          "sessB" "user1" 2) "conn1" = some oldRecord := by decide

/-- C8 amended: registering a session record for a connection identifier
that already has an active record does not fail: the new record silently
replaces the existing one under that key (records under other keys are
untouched), so the previous record and its transcription handle are
dropped rather than protected by a DuplicateSession error. -/
theorem C8_create_replaces_amended (m : List (String × ActiveSession))
    (clientId sessionId userId : String) (handle : Nat) :
    mapGet (handleStartInterviewRegistry m clientId sessionId userId handle)
        clientId =
      some (initialActiveSession sessionId userId handle) ∧
      (∀ k, ¬ k = clientId →
        mapGet (handleStartInterviewRegistry m clientId sessionId userId handle)
            k =
          mapGet m k) := by
  exact ⟨mapGet_mapSet_self m clientId _,
    fun k hk => mapGet_mapSet_ne m clientId k _ hk⟩

/-- Witness for C8 amended: registering over an occupied connection key
replaces the stored record and leaves an unrelated key unchanged. -/
theorem C8_create_replaces_amended_witness :
    mapGet (handleStartInterviewRegistry [("conn1", oldRecord)] "conn1"
        "sessB" "user1" 2) "conn1" =
      some (initialActiveSession "sessB" "user1" 2) ∧
      mapGet (handleStartInterviewRegistry [("conn1", oldRecord)] "conn1"
          "sessB" "user1" 2) "conn2" =
        mapGet [("conn1", oldRecord)] "conn2" := by
  refine ⟨(C8_create_replaces_amended [("conn1", oldRecord)] "conn1" "sessB"
      "user1" 2).1, ?_⟩
  exact (C8_create_replaces_amended [("conn1", oldRecord)] "conn1" "sessB"
    "user1" 2).2 "conn2" (by decide)

/-- C9: when the finalize action for the last question completes, the
interview_completed event emitted to the client carries currentQuestion
equal to totalQuestions + 1, the post-increment index, not totalQuestions. -/
theorem C9_completion_event_index (tts : String → List Nat) (llm : String)
    (db : InterviewSession) (s : ActiveSession) (sttReady : Bool)
    (freshHandle : Nat)
    (hlast : db.currentQuestion = db.totalQuestions)
    (hp : s.isProcessing = false) (hf : s.isFinalizing = false)
    (hne : ¬ jsTrim s.transcript = "") :
    (processTranscript tts llm db (jsTrim s.transcript)).2.isComplete = true ∧
      (processTranscript tts llm db (jsTrim s.transcript)).2.currentQuestion =
        db.totalQuestions + 1 ∧
      (autoProcessAnswer s
          (Except.ok (processTranscript tts llm db (jsTrim s.transcript)).2)
          sttReady freshHandle).events =
        [OutEvent.answerSaved s.sessionId,
          OutEvent.interviewCompleted s.sessionId (db.totalQuestions + 1)
            db.totalQuestions] := by
  have hlt : db.totalQuestions < db.currentQuestion + 1 := by omega
  have hres : (processTranscript tts llm db (jsTrim s.transcript)).2 =
      { transcript := jsTrim s.transcript
        question := none
        questionAudioBytes := none
        currentQuestion := db.currentQuestion + 1
        totalQuestions := db.totalQuestions
        isComplete := true } := by
    simp [processTranscript, addToHistory, hlt]
  rw [hres]
  refine ⟨rfl, by simp [hlast], ?_⟩
  simp [autoProcessAnswer, hp, hf, hne, hlast]

/-- Witness for C9: a 5-question interview whose last answer is finalized
emits interview_completed carrying currentQuestion 6, not 5. -/
theorem C9_completion_event_index_witness :
    (autoProcessAnswer readySession
        (Except.ok (processTranscript tts0 "fb" lastQuestionSession
          (jsTrim readySession.transcript)).2) true 0).events =
      [OutEvent.answerSaved "sess1",
        OutEvent.interviewCompleted "sess1" 6 5] :=
  (C9_completion_event_index tts0 "fb" lastQuestionSession readySession true 0
    rfl rfl rfl (by decide)).2.2

/-- C10: a start_interview request whose totalQuestions is omitted, null, or
an explicit 0 creates the session with totalQuestions 5 — every JS-falsy
value maps to the default 5, and an explicit 0 does not produce a
zero-question interview (the bank still holds 5 questions). -/
theorem C10_default_total_questions (completionText : String) (t : Option Nat)
    (h : t = none ∨ t = some 0) :
    (startInterview completionText t).1.totalQuestions = 5 ∧
      (startInterview completionText t).2.totalQuestions = 5 ∧
      (startInterview completionText t).1.questions.length = 5 := by
  rcases h with h | h <;> subst h <;>
    simp [startInterview, addToHistory, generateAllQuestions_length]

/-- Witness for C10: an explicit totalQuestions 0 still creates a session
with totalQuestions 5 and a 5-entry question bank. -/
theorem C10_default_total_questions_witness :
    (startInterview "1. A\n2. B" (some 0)).1.totalQuestions = 5 ∧
      (startInterview "1. A\n2. B" (some 0)).2.totalQuestions = 5 ∧
      (startInterview "1. A\n2. B" (some 0)).1.questions.length = 5 :=
  C10_default_total_questions "1. A\n2. B" (some 0) (Or.inr rfl)
